import Mathlib

/-!
Verification of the HarmonyDB Django backend against its natural-language
specification.  The relevant Python source is shallowly embedded: pure
string processing becomes Lean functions on `String`/`List Char`, the ORM
state becomes explicit lists of rows, fallible Python code becomes
`Except`/`Option` values, and Python exceptions become `Except.error`
carrying the exception's description.
-/

namespace HarmonyDB

/-! ## Python string primitives

Models of the Python builtins used by `meloai/services.py`:
`needle in haystack` (substring containment), `str.lower`, `str.find`,
`str.rfind` and slicing.  Strings are processed as `List Char`. -/

/-- Whether `pat` is an initial segment of `l` (character-wise `==`). -/
def leadsWith : List Char → List Char → Bool
  | [], _ => true
  | _ :: _, [] => false
  | a :: as, b :: bs => a == b && leadsWith as bs

/-- Python `needle in hay` on character lists: `needle` occurs contiguously
    in `hay` (the empty needle occurs in every string). -/
def containsSub : List Char → List Char → Bool
  | [], needle => needle.isEmpty
  | hay@(_ :: t), needle => leadsWith needle hay || containsSub t needle

/-- Python `needle in hay` on strings. -/
def hasSub (hay needle : String) : Bool :=
  containsSub hay.data needle.data

/-- Python `str.lower()` (ASCII case folding, the only case the queries use). -/
def lowerStr (s : String) : String :=
  ⟨s.data.map Char.toLower⟩

/-- Python `any(word in ql for word in ws)`. -/
def anyWordIn (ql : String) (ws : List String) : Bool :=
  ws.any (fun w => hasSub ql w)

/-! ## `GroqAIService._fallback_processing`: intent classification

The keyword lists below are the literal lists of
`meloai/services.py` lines 181-240.  In the Python source the local
variable `entities` is first bound at line 243 (`entities = {}`), yet the
branches for favorites (lines 184-193), history with a recency word
(line 197) and user stats (line 200) all execute
`entities['favorite_type'] = ...` style subscript assignments before that
binding: CPython raises `UnboundLocalError` there.  The embedding returns
`Except.error` at exactly those program points. -/

def favoriteTriggers : List String :=
  ["my favorite", "my favourites", "favorite songs", "favorite artists",
   "favorite albums", "favourites"]

def historyTriggers : List String :=
  ["my history", "listening history", "recently played", "songs i played"]

def statTriggers : List String :=
  ["my most played", "my top", "my stats"]

def aggregationTriggers : List String :=
  ["how many", "count", "total number", "average", "avg", "maximum",
   "minimum", "sum"]

def joinTriggers : List String :=
  ["join", "with their", "and their", "corresponding", "along with"]

def subqueryTriggers : List String :=
  ["most", "highest number", "album with", "artist with"]

def topFirstWords : List String :=
  ["top", "first"]

def groupingTriggers : List String :=
  ["by each", "group by", "per artist", "per album", "per genre",
   "distribution"]

def topQueryTriggers : List String :=
  ["top", "first", "show me 5", "show me 10", "most played"]

def dateRangeTriggers : List String :=
  ["last 30 days", "recent", "recently", "after 20", "before 20", "in year"]

def textSearchTriggers : List String :=
  ["containing", "matches", "search for", "find songs with"]

def albumWords : List String :=
  ["album", "record"]

def songsTracksWords : List String :=
  ["songs", "tracks"]

def artistWords : List String :=
  ["artist", "singer", "band"]

/-- The exception CPython raises when `_fallback_processing` touches the
    local `entities` before its binding at line 243. -/
def entitiesUnbound : String :=
  "UnboundLocalError: cannot access local variable entities"

/-- Intent-classification phase of `GroqAIService._fallback_processing`
    (services.py lines 178-240 together with the later
    `entities['aggregation_type'] = aggregation_type` at lines 247-248).
    Returns the chosen `intent` string and, for the aggregation intent, the
    `aggregation_type` the code binds; `Except.error` models the
    `UnboundLocalError` raised on the branches that assign into `entities`
    before it is bound. -/
def fallbackIntent (userQuery : String) : Except String (String × Option String) :=
  let ql := lowerStr userQuery
  if anyWordIn ql favoriteTriggers then
    -- every sub-branch assigns entities['favorite_type'] first
    .error entitiesUnbound
  else if anyWordIn ql historyTriggers then
    if hasSub ql "recent" || hasSub ql "recently" then
      -- entities['time_range'] = 'recent' before `entities` is bound
      .error entitiesUnbound
    else
      .ok ("get_user_history", none)
  else if anyWordIn ql statTriggers then
    -- entities['stat_type'] = 'most_played' before `entities` is bound
    .error entitiesUnbound
  else if anyWordIn ql aggregationTriggers then
    if hasSub ql "average" || hasSub ql "avg" then
      .ok ("get_aggregation", some "avg")
    else if hasSub ql "count" || hasSub ql "how many" || hasSub ql "total number" then
      .ok ("get_aggregation", some "count")
    else if hasSub ql "maximum" || hasSub ql "highest" || hasSub ql "max" then
      .ok ("get_aggregation", some "max")
    else if hasSub ql "minimum" || hasSub ql "lowest" || hasSub ql "min" then
      .ok ("get_aggregation", some "min")
    else if hasSub ql "sum" || hasSub ql "total" then
      .ok ("get_aggregation", some "sum")
    else
      .ok ("get_aggregation", some "count")
  else if anyWordIn ql joinTriggers then
    .ok ("get_joined_data", none)
  else if anyWordIn ql subqueryTriggers && !(anyWordIn ql topFirstWords) then
    .ok ("get_subquery_result", none)
  else if anyWordIn ql groupingTriggers then
    .ok ("get_grouped_aggregation", none)
  else if anyWordIn ql topQueryTriggers then
    .ok ("search_songs", none)
  else if anyWordIn ql dateRangeTriggers then
    if hasSub ql "albums" || hasSub ql "album" then
      .ok ("search_albums", none)
    else
      .ok ("search_songs", none)
  else if anyWordIn ql textSearchTriggers then
    .ok ("search_songs", none)
  else if anyWordIn ql albumWords && !(anyWordIn ql songsTracksWords) then
    .ok ("search_albums", none)
  else if anyWordIn ql artistWords then
    .ok ("search_artists", none)
  else
    .ok ("search_songs", none)

/-! ## Python values

A small universe of Python values, enough for the JSON dicts that
`meloai/services.py` passes around: `None`, booleans, integers, strings,
lists and string-keyed dicts. -/

inductive PyVal where
  | none
  | bool (b : Bool)
  | int (n : Int)
  | str (s : String)
  | list (l : List PyVal)
  | dict (l : List (String × PyVal))

/-- A Python dict with string keys, as an association list. -/
abbrev PyDict := List (String × PyVal)

/-- Python `d[k]` lookup as an `Option` (first binding of the key). -/
def dictGet (d : PyDict) (k : String) : Option PyVal :=
  (d.find? (fun kv => kv.1 == k)).map (fun kv => kv.2)

/-- Python `d.get(k, default)`. -/
def dictGetD (d : PyDict) (k : String) (v : PyVal) : PyVal :=
  (dictGet d k).getD v

/-- Python `d[k] = v`: replace the binding when the key exists, append
    otherwise. -/
def dictSet (d : PyDict) (k : String) (v : PyVal) : PyDict :=
  if d.any (fun kv => kv.1 == k) then
    d.map (fun kv => if kv.1 == k then (k, v) else kv)
  else
    d ++ [(k, v)]

/-- Python truthiness of a value (`if entities.get('artist_name'):`). -/
def pyTruthy : PyVal → Bool
  | .none => false
  | .bool b => b
  | .int n => n != 0
  | .str s => !s.isEmpty
  | .list l => !l.isEmpty
  | .dict l => !l.isEmpty

/-- Python `v == "s"` for a string literal: true only for an equal string. -/
def pyEqStr : PyVal → String → Bool
  | .str t, s => t == s
  | _, _ => false

/-- Python `str(v)`/f-string interpolation of a value.  Containers are shown
    schematically; no theorem depends on those cases. -/
def pyStr : PyVal → String
  | .none => "None"
  | .bool true => "True"
  | .bool false => "False"
  | .int n => toString n
  | .str s => s
  | .list _ => "[list]"
  | .dict _ => "[dict]"

/-- Python `len(results) if isinstance(results, list) else 1`
    (services.py line 448). -/
def resultCount : PyVal → Nat
  | .list l => l.length
  | _ => 1

/-- Python `s.replace('_', ' ')` on a value: `AttributeError` when the
    value is not a string (services.py line 461 applies it to
    `ai_response.get('dbms_concept', 'basic_query')`). -/
def pyReplaceUnderscore : PyVal → Except String String
  | .str s => .ok ⟨s.data.map (fun c => if c == '_' then ' ' else c)⟩
  | _ => .error "AttributeError: the value of dbms_concept has no attribute replace"

/-! ## `GroqAIService._generate_sql_query` (services.py lines 148-174) -/

def generate_sql_query (entities : PyDict) : String :=
  let getE := fun k => dictGetD entities k .none
  let conds : List String :=
    (if pyTruthy (getE "artist_name") then
       ["artist__username ICONTAINS '" ++ pyStr (getE "artist_name") ++ "'"]
     else [])
    ++ (if pyTruthy (getE "song_title") then
          ["title ICONTAINS '" ++ pyStr (getE "song_title") ++ "'"]
        else [])
    ++ (if pyTruthy (getE "album_title") then
          ["album__title ICONTAINS '" ++ pyStr (getE "album_title") ++ "'"]
        else [])
    ++ (if pyTruthy (getE "genre") then
          ["genre__name ICONTAINS '" ++ pyStr (getE "genre") ++ "'"]
        else [])
    ++ (if pyTruthy (getE "year") then
          ["release_date__year = " ++ pyStr (getE "year")]
        else [])
    ++ (if pyTruthy (getE "play_count_filter") then
          if pyEqStr (getE "play_count_filter") "high" then
            ["play_count > 100"]
          else if pyEqStr (getE "play_count_filter") "medium" then
            ["play_count BETWEEN 10 AND 100"]
          else if pyEqStr (getE "play_count_filter") "low" then
            ["play_count < 10"]
          else []
        else [])
  if !conds.isEmpty then
    "SELECT * FROM songs_song WHERE " ++ String.intercalate " AND " conds
      ++ " AND approved = True ORDER BY play_count DESC LIMIT 20"
  else
    "SELECT * FROM songs_song WHERE approved = True ORDER BY play_count DESC LIMIT 20"

/-! ## `GroqAIService.process_music_query` and `_parse_ai_response`
(services.py lines 17-68 and 128-146)

The remote call and `json.loads` are environment oracles: `ApiCallOutcome`
is what the `requests.post` call and the subsequent
`response.json()['choices'][0]['message']['content']` extraction did
(either raised, or produced a status code and the reply text), and
`jsonLoads` is `json.loads` restricted to the sliced `{...}` candidate
(`Option.none` models `json.JSONDecodeError`).  The fallback processor is a
parameter `fb`, so the theorems relate `process_music_query` to exactly the
function the source calls. -/

/-- Python `str.find(c)`: index of the first occurrence, `-1` when absent. -/
def pyFindChar (l : List Char) (c : Char) : Int :=
  match l.findIdx? (fun x => x == c) with
  | some i => (i : Int)
  | Option.none => -1

/-- Python `str.rfind(c)`: index of the last occurrence, `-1` when absent. -/
def pyRFindChar (l : List Char) (c : Char) : Int :=
  match l.reverse.findIdx? (fun x => x == c) with
  | some i => ((l.length - 1 - i : Nat) : Int)
  | Option.none => -1

/-- Lines 132-136: `json_start = ai_content.find('{')`,
    `json_end = ai_content.rfind('}') + 1`, and the slice
    `ai_content[json_start:json_end]` when `json_start >= 0` and
    `json_end > json_start`; `Option.none` when no candidate JSON object is
    found. -/
def jsonSlice (content : String) : Option String :=
  let cs := content.data
  let jsonStart := pyFindChar cs '{'
  let jsonEnd := pyRFindChar cs '}' + 1
  if jsonStart ≥ 0 ∧ jsonEnd > jsonStart then
    some ⟨(cs.drop jsonStart.toNat).take (jsonEnd - jsonStart).toNat⟩
  else
    Option.none

inductive ApiCallOutcome where
  | raises (msg : String)
  | returns (statusCode : Nat) (content : String)

structure GroqEnv where
  apiKey : Option String
  call : ApiCallOutcome
  jsonLoads : String → Option PyDict

/-- Python `not self.api_key`: the key is unset or the empty string. -/
def falsyKey : Option String → Bool
  | Option.none => true
  | some s => s.isEmpty

/-- `GroqAIService._parse_ai_response` (lines 128-146).  On a parsed dict it
    stores the generated SQL under `sql_query`; a missing JSON candidate or
    a `JSONDecodeError` fall back; a non-dict `entities` value makes
    `_generate_sql_query`'s `entities.get` raise `AttributeError`, which
    this method does not catch. -/
def parse_ai_response (env : GroqEnv) (fb : String → Except String PyDict)
    (aiContent originalQuery : String) : Except String PyDict :=
  match jsonSlice aiContent with
  | some jsonStr =>
    match env.jsonLoads jsonStr with
    | some parsed =>
      match dictGetD parsed "entities" (.dict []) with
      | .dict e => .ok (dictSet parsed "sql_query" (.str (generate_sql_query e)))
      | _ => .error "AttributeError: entities value has no attribute get"
    | Option.none => fb originalQuery
  | Option.none => fb originalQuery

/-- `GroqAIService.process_music_query` (lines 17-68): missing key, raised
    exception, non-200 status and parse failures all route to the fallback
    processor applied to the original user query. -/
def process_music_query (env : GroqEnv) (fb : String → Except String PyDict)
    (userQuery : String) : Except String PyDict :=
  if falsyKey env.apiKey then
    fb userQuery
  else
    match env.call with
    | .raises _ => fb userQuery
    | .returns status content =>
      if status == 200 then
        match parse_ai_response env fb content userQuery with
        | .ok d => .ok d
        | .error _ => fb userQuery
      else
        fb userQuery

/-! ## `MusicQueryProcessor.execute_query` (services.py lines 400-464)

Each intent handler is a static method that reads the database; here each
is an oracle returning either a result value or a raised exception's
message.  `execute_query` itself is `Except`-valued because its `except`
branch interpolates `dbms_concept.replace('_', ' ')`, which raises
`AttributeError` when the dict carries a non-string `dbms_concept`. -/

structure QueryHandlers where
  searchSongs : PyVal → Except String PyVal
  searchAlbums : PyVal → Except String PyVal
  searchArtists : PyVal → Except String PyVal
  getAggregation : PyVal → Except String PyVal
  getJoinedData : PyVal → Except String PyVal
  getSubqueryResult : PyVal → Except String PyVal
  getGroupedAggregation : PyVal → Except String PyVal
  getUserFavorites : PyVal → Except String PyVal
  getUserHistory : PyVal → Except String PyVal
  getUserStatsDetailed : PyVal → Except String PyVal
  getUserStats : Except String PyVal

/-- The `if intent == ... elif ...` dispatch of lines 407-442, paired with
    the `result_type` each branch sets. -/
def dispatchIntent (h : QueryHandlers) (intent entities : PyVal) :
    Except String (PyVal × String) :=
  if pyEqStr intent "search_songs" then (h.searchSongs entities).map (fun r => (r, "songs"))
  else if pyEqStr intent "search_albums" then (h.searchAlbums entities).map (fun r => (r, "albums"))
  else if pyEqStr intent "search_artists" then (h.searchArtists entities).map (fun r => (r, "artists"))
  else if pyEqStr intent "get_aggregation" then (h.getAggregation entities).map (fun r => (r, "aggregation"))
  else if pyEqStr intent "get_joined_data" then (h.getJoinedData entities).map (fun r => (r, "joined_data"))
  else if pyEqStr intent "get_subquery_result" then (h.getSubqueryResult entities).map (fun r => (r, "subquery_result"))
  else if pyEqStr intent "get_grouped_aggregation" then (h.getGroupedAggregation entities).map (fun r => (r, "grouped_aggregation"))
  else if pyEqStr intent "get_user_favorites" then (h.getUserFavorites entities).map (fun r => (r, "user_favorites"))
  else if pyEqStr intent "get_user_history" then (h.getUserHistory entities).map (fun r => (r, "user_history"))
  else if pyEqStr intent "get_user_stats" then (h.getUserStatsDetailed entities).map (fun r => (r, "user_stats"))
  else if pyEqStr intent "get_stats" then h.getUserStats.map (fun r => (r, "stats"))
  else (h.searchSongs entities).map (fun r => (r, "songs"))

def execute_query (h : QueryHandlers) (aiResponse : PyDict) : Except String PyDict :=
  let intent := dictGetD aiResponse "intent" (.str "search_songs")
  let entities := dictGetD aiResponse "entities" (.dict [])
  let dbmsConcept := dictGetD aiResponse "dbms_concept" (.str "basic_query")
  match dispatchIntent h intent entities with
  | .ok (results, resultType) =>
    .ok [("success", .bool true),
         ("result_type", .str resultType),
         ("results", results),
         ("count", .int (resultCount results)),
         ("ai_response", dictGetD aiResponse "natural_response" (.str "")),
         ("sql_query", dictGetD aiResponse "sql_query" (.str "")),
         ("dbms_concept", dbmsConcept)]
  | .error e =>
    match pyReplaceUnderscore dbmsConcept with
    | .ok concept =>
      .ok [("success", .bool false),
           ("error", .str e),
           ("result_type", .str "error"),
           ("results", .list []),
           ("count", .int 0),
           ("ai_response", .str ("Sorry, I encountered an error while processing this "
              ++ concept ++ " query: " ++ e)),
           ("sql_query", dictGetD aiResponse "sql_query" (.str "")),
           ("dbms_concept", dbmsConcept)]
    | .error e2 => .error e2

/-! ## Data model (songs/models.py, users/models.py)

Row types for the ORM tables the claims touch.  Auto-generated surrogate
ids and `auto_now`/`auto_now_add` timestamps are carried as plain numbers;
`Song.duration` is a `FloatField` that the verified operations only copy,
so it is carried as an exact numeric field.  `Favorite` rows are identified
by their `(user, item_type, item_id)` triple, which `unique_together`
declares as their logical identity (songs/models.py line 74). -/

structure UserRow where
  id : Nat
  username : String
deriving DecidableEq

structure AlbumRow where
  id : Nat
  title : String
  artist : Nat
  coverImage : Option String
  releaseDate : Option Int
  createdAt : Int
  updatedAt : Int
deriving DecidableEq

structure SongRow where
  id : Nat
  title : String
  artist : Nat
  album : Option Nat
  genre : Option Nat
  coverImage : Option String
  audioFile : String
  releaseDate : Int
  duration : Int
  playCount : Nat
  uploadDate : Int
  approved : Bool
deriving DecidableEq

structure PlaylistRow where
  id : Nat
  name : String
  user : Nat
  coverImage : Option String
  isPublic : Bool
deriving DecidableEq

structure FavRow where
  user : Nat
  itemType : String
  itemId : Nat
deriving DecidableEq

structure HistRow where
  user : Nat
  song : Nat
deriving DecidableEq

/-! ## `MusicQueryProcessor._get_user_favorites` (services.py lines 983-1089)

The method filters `user.favorites` — rows of the `Favorite` model — with
the keyword `content_type__model`.  `Favorite` (songs/models.py lines
61-74) declares the fields `user`, `item_type`, `item_id`, `created_at`
and the implicit `id`: it is not a generic-relations model and has no
`content_type` field, so Django's field resolution raises `FieldError` on
every call that reaches the filter. -/

def favoriteModelFields : List String :=
  ["id", "user", "item_type", "item_id", "created_at"]

/-- Characters before the first `__` separator of a lookup keyword. -/
def lookupRootChars : List Char → List Char
  | [] => []
  | '_' :: '_' :: _ => []
  | c :: rest => c :: lookupRootChars rest

/-- The model field a Django lookup keyword is resolved against: the part
    before the first `__`. -/
def lookupRoot (lookup : String) : String :=
  ⟨lookupRootChars lookup.data⟩

/-- Django resolution of a filter keyword against `Favorite`: a keyword
    whose root is not one of the model's fields raises `FieldError`. -/
def resolveFavoriteLookup (key : String) : Except String String :=
  let root := lookupRoot key
  if favoriteModelFields.contains root then
    .ok root
  else
    .error ("FieldError: cannot resolve keyword " ++ root
      ++ " into field. Choices are: id, user, item_type, item_id, created_at")

/-- `user.favorites.filter(<lookupKey>=...)`.  The `.ok` branch returns the
    queryset unfiltered: the only lookup key `_get_user_favorites` uses
    fails to resolve, so that branch is never reached (proved below). -/
def favoritesFilterQuery (favs : List FavRow) (lookupKey : String) :
    Except String (List FavRow) :=
  match resolveFavoriteLookup lookupKey with
  | .ok _ => .ok favs
  | .error e => .error e

/-- `MusicQueryProcessor._get_user_favorites`: each of the three
    favorite_type branches filters on `content_type__model`; the final
    fallthrough (line 1089) returns the empty list. -/
def get_user_favorites (favs : List FavRow) (entities : PyVal) :
    Except String PyVal :=
  match entities with
  | .dict d =>
    let ft := dictGetD d "favorite_type" (.str "songs")
    if pyEqStr ft "songs" then
      match favoritesFilterQuery favs "content_type__model" with
      | .ok _ => .ok (.list [])
      | .error e => .error e
    else if pyEqStr ft "artists" then
      match favoritesFilterQuery favs "content_type__model" with
      | .ok _ => .ok (.list [])
      | .error e => .error e
    else if pyEqStr ft "albums" then
      match favoritesFilterQuery favs "content_type__model" with
      | .ok _ => .ok (.list [])
      | .error e => .error e
    else
      .ok (.list [])
  | _ => .error "AttributeError: the entities value has no attribute get"

/-! ## `ToggleFavoriteView.post` (songs/views.py lines 1063-1173)

The view validates the request, checks item existence (approved songs,
any album, public-or-owned playlists), and inside one transaction either
deletes all matching Favorite rows or creates one.  The read-only
aggregation statistics the view also computes do not change state and are
omitted.  The `unique_together ('user', 'item_type', 'item_id')`
constraint is modeled by `favoriteInsert`, the insert path every
favorite-creating operation goes through. -/

structure Catalog where
  songs : List SongRow
  albums : List AlbumRow
  playlists : List PlaylistRow

/-- The row filter `user=..., item_type=..., item_id=...` of lines
    1105-1117. -/
def favMatch (u : Nat) (t : String) (i : Nat) (f : FavRow) : Bool :=
  f.user == u && f.itemType == t && f.itemId == i

def favKey (f : FavRow) : Nat × String × Nat :=
  (f.user, f.itemType, f.itemId)

/-- The `unique_together ('user', 'item_type', 'item_id')` invariant: no
    two Favorite rows share their key triple. -/
def FavUnique (l : List FavRow) : Prop :=
  l.Pairwise (fun a b => favKey a ≠ favKey b)

/-- A constrained INSERT into the Favorite table: the declared
    `unique_together` makes the database reject a duplicate key with
    `IntegrityError`. -/
def favoriteInsert (favs : List FavRow) (f : FavRow) :
    Except String (List FavRow) :=
  if favs.any (fun g => favMatch f.user f.itemType f.itemId g) then
    .error "IntegrityError: UNIQUE constraint failed on (user, item_type, item_id)"
  else
    .ok (favs ++ [f])

/-- The EXISTS-style validation of lines 1084-1094. -/
def itemExistsCheck (cat : Catalog) (uid : Nat) (t : String) (i : Nat) : Bool :=
  if t == "song" then
    cat.songs.any (fun s => s.id == i && s.approved)
  else if t == "album" then
    cat.albums.any (fun a => a.id == i)
  else if t == "playlist" then
    cat.playlists.any (fun p => p.id == i && (p.isPublic || p.user == uid))
  else
    false

inductive ToggleResp where
  | badRequest
  | notFound
  | removed (deletedCount : Nat)
  | added (fav : FavRow)
deriving DecidableEq

/-- The `favorited` field of the view's JSON response. -/
def respFavorited : ToggleResp → Option Bool
  | .removed _ => some false
  | .added _ => some true
  | _ => Option.none

structure ToggleReq where
  itemType : Option String
  itemId : Option Nat

/-- Python `not item_type` on `request.data.get('item_type')`. -/
def pyFalsyStrOpt : Option String → Bool
  | Option.none => true
  | some s => s.isEmpty

/-- Python `not item_id` (`0` is falsy). -/
def pyFalsyNatOpt : Option Nat → Bool
  | Option.none => true
  | some n => n == 0

/-- `ToggleFavoriteView.post`: response and new Favorite table.  The create
    path appends directly: the exists-check ran in the same transaction, so
    `Favorite.objects.create` cannot hit the unique constraint there. -/
def toggleFavorite (cat : Catalog) (favs : List FavRow) (uid : Nat)
    (req : ToggleReq) : ToggleResp × List FavRow :=
  if pyFalsyStrOpt req.itemType || pyFalsyNatOpt req.itemId then
    (.badRequest, favs)
  else
    let t := req.itemType.getD ""
    let i := req.itemId.getD 0
    if !(itemExistsCheck cat uid t i) then
      (.notFound, favs)
    else if favs.any (favMatch uid t i) then
      let remaining := favs.filter (fun f => !(favMatch uid t i f))
      (.removed (favs.length - remaining.length), remaining)
    else
      (.added ⟨uid, t, i⟩, favs ++ [⟨uid, t, i⟩])

/-! ## Cascade semantics of the declared foreign keys (songs/models.py)

`Song.album` is declared `on_delete=SET_NULL` (line 27); `Song.artist` and
`Album.artist` are `on_delete=CASCADE` (lines 26 and 15).  Deleting an
Album therefore nulls the `album` reference of its songs; deleting a User
collects that user's albums and songs for deletion and nulls the `album`
reference of surviving songs whose album was collected. -/

structure LibraryState where
  users : List UserRow
  albums : List AlbumRow
  songs : List SongRow

/-- Django deletion of the album with id `aid` under the declared
    `on_delete` rules. -/
def deleteAlbum (db : LibraryState) (aid : Nat) : LibraryState :=
  { db with
    albums := db.albums.filter (fun a => !(a.id == aid)),
    songs := db.songs.map (fun s =>
      if s.album == some aid then { s with album := Option.none } else s) }

/-- Django deletion of the user with id `uid` under the declared
    `on_delete` rules: the user's albums and songs are cascade-deleted, and
    a surviving song whose album was cascade-deleted gets `album = NULL`. -/
def deleteUser (db : LibraryState) (uid : Nat) : LibraryState :=
  let albumDies := fun (aOpt : Option Nat) =>
    match aOpt with
    | some aid => db.albums.any (fun a => a.id == aid && a.artist == uid)
    | Option.none => false
  { users := db.users.filter (fun u => !(u.id == uid)),
    albums := db.albums.filter (fun a => !(a.artist == uid)),
    songs := (db.songs.filter (fun s => !(s.artist == uid))).map (fun s =>
      if albumDies s.album then { s with album := Option.none } else s) }

/-- Frame predicate for C7: every Song field except `album` is unchanged. -/
def sameExceptAlbum (s t : SongRow) : Prop :=
  t.id = s.id ∧ t.title = s.title ∧ t.artist = s.artist ∧ t.genre = s.genre
  ∧ t.coverImage = s.coverImage ∧ t.audioFile = s.audioFile
  ∧ t.releaseDate = s.releaseDate ∧ t.duration = s.duration
  ∧ t.playCount = s.playCount ∧ t.uploadDate = s.uploadDate
  ∧ t.approved = s.approved

/-! ## `SongStreamView.get` (songs/views.py lines 229-260)

The view looks the song up (404 when absent), records a ListeningHistory
row when the requester is authenticated, streams the file, and only then
increments `play_count`, saving with `update_fields=["play_count"]`.
`fileOk` abstracts the filesystem and Range-header handling: `false` means
the streaming block raised (after the history insert, before the
play-count save). -/

structure StreamState where
  songs : List SongRow
  history : List HistRow

inductive StreamOutcome where
  | notFound
  | fileError
  | streamed
deriving DecidableEq

def findSong (songs : List SongRow) (pk : Nat) : Option SongRow :=
  songs.find? (fun s => s.id == pk)

def song_stream_get (fileOk : Nat → Bool) (st : StreamState)
    (requser : Option Nat) (pk : Nat) : StreamOutcome × StreamState :=
  match findSong st.songs pk with
  | Option.none => (.notFound, st)
  | some _ =>
    let history' :=
      match requser with
      | some u => st.history ++ [⟨u, pk⟩]
      | Option.none => st.history
    if fileOk pk then
      (.streamed,
       { songs := st.songs.map (fun s =>
           if s.id == pk then { s with playCount := s.playCount + 1 } else s),
         history := history' })
    else
      (.fileError, { st with history := history' })

/-- Frame predicate for C10: every Song field except `play_count` is
    unchanged. -/
def sameExceptPlayCount (s t : SongRow) : Prop :=
  t.id = s.id ∧ t.title = s.title ∧ t.artist = s.artist ∧ t.album = s.album
  ∧ t.genre = s.genre ∧ t.coverImage = s.coverImage
  ∧ t.audioFile = s.audioFile ∧ t.releaseDate = s.releaseDate
  ∧ t.duration = s.duration ∧ t.uploadDate = s.uploadDate
  ∧ t.approved = s.approved

/-! ## `encode_uid` / `decode_uid` (users/utils.py lines 7-15)

`encode_uid(pk)` is Django's `urlsafe_base64_encode(force_bytes(str(pk)))`:
the decimal digits of the primary key, UTF-8 encoded, base64 encoded with
the URL-safe alphabet and the `=` padding stripped.  `decode_uid` reverses
the pipeline inside a blanket `except Exception: return None`.

Modeling of the library calls: bytes are `Nat` values below 256.  The
decode side embeds Django's `urlsafe_base64_decode` exactly: it right-pads
the input with `len(s) % 4` bytes of `'='` over the UTF-8 byte length,
then runs CPython's non-strict `binascii.a2b_base64` state machine
(`a2bBase64` below: bytes outside the alphabet are discarded without
touching the machine state, output bytes are emitted eagerly one per data
character from the second character of each quad, a `'='` that completes a
quad of at least two data characters stops decoding and returns the bytes
emitted so far, and a dangling quad at the end of input is an error).
Since every byte of a multi-byte UTF-8 character is `0x80` or above —
never an alphabet byte and never `'='` — processing the input
character-wise is byte-exact.  The machine was checked against CPython
3.11 on a corpus of padded, stray-character and multi-byte inputs.
`bytes.decode()` is strict UTF-8 (`utf8Decode`: overlong forms,
surrogates and out-of-range leads rejected).  The `int` coercion inside
Django's `pk` lookup is an oracle parameter `intParse` — CPython's
`int()` also accepts signs, Unicode whitespace and Unicode decimal
digits, which have no tractable embedding — and the only property the
round-trip theorem assumes of it is `int(str(pk)) == pk`;
`canonicalIntParse` realises the oracle on canonical digit strings for
the witness. -/

def b64Alphabet : List Char :=
  "ABCDEFGHIJKLMNOPQRSTUVWXYZabcdefghijklmnopqrstuvwxyz0123456789-_".toList

def b64EncChar (n : Nat) : Char :=
  b64Alphabet.getD n 'A'

/-- The six-bit value of a data character.  `urlsafe_b64decode` first
    translates `-`/`_` to `+`/`/` and then uses the standard table, so the
    standard pair is accepted with the same values as the URL-safe pair. -/
def b64DecChar (c : Char) : Option Nat :=
  match b64Alphabet.indexOf? c with
  | some i => some i
  | Option.none =>
    if c == '+' then some 62 else if c == '/' then some 63 else Option.none

/-- URL-safe base64 of a byte list, `=` padding stripped
    (`urlsafe_base64_encode`). -/
def b64Encode : List Nat → List Char
  | [] => []
  | [b0] =>
    [b64EncChar (b0 / 4), b64EncChar (b0 % 4 * 16)]
  | [b0, b1] =>
    [b64EncChar (b0 / 4), b64EncChar (b0 % 4 * 16 + b1 / 16),
     b64EncChar (b1 % 16 * 4)]
  | b0 :: b1 :: b2 :: rest =>
    b64EncChar (b0 / 4) :: b64EncChar (b0 % 4 * 16 + b1 / 16)
      :: b64EncChar (b1 % 16 * 4 + b2 / 64) :: b64EncChar (b2 % 64)
      :: b64Encode rest

/-- CPython's non-strict `binascii.a2b_base64` loop: input characters,
    quad position (0-3), the pending bits (`leftchar`), the running pad
    count (reset by every data character, incremented by `'='` only once
    the quad has two data characters — the C code's short-circuit), and
    the bytes emitted so far.  A pad completing a quad returns those
    bytes; a dangling quad at the end of input is `binascii.Error`. -/
def a2bBase64 : List Char → Nat → Nat → Nat → List Nat → Option (List Nat)
  | [], 0, _, _, acc => some acc
  | [], _ + 1, _, _, _ => Option.none
  | c :: rest, qp, left, pads, acc =>
    if c == '=' then
      if 2 ≤ qp ∧ 4 ≤ qp + pads + 1 then some acc
      else if 2 ≤ qp then a2bBase64 rest qp left (pads + 1) acc
      else a2bBase64 rest qp left pads acc
    else
      match b64DecChar c with
      | Option.none => a2bBase64 rest qp left pads acc
      | some v =>
        match qp with
        | 0 => a2bBase64 rest 1 v 0 acc
        | 1 => a2bBase64 rest 2 (v % 16) 0 (acc ++ [left * 4 + v / 16])
        | 2 => a2bBase64 rest 3 (v % 4) 0 (acc ++ [left * 16 + v / 4])
        | _ => a2bBase64 rest 0 0 0 (acc ++ [left * 64 + v])

/-- Django's `urlsafe_base64_decode`: right-pad with `len(s) % 4` bytes of
    `'='` (the byte length of the UTF-8 encoding) and run the lenient
    decoder; `Option.none` models the `ValueError` the helper raises. -/
def urlsafe_base64_decode (s : String) : Option (List Nat) :=
  a2bBase64 (s.data ++ List.replicate ((s.data.map Char.utf8Size).sum % 4) '=') 0 0 0 []

/-- The character of a decimal digit. -/
def digitChar (n : Nat) : Char :=
  Char.ofNat (48 + n)

/-- Decimal digits with a structural fuel argument (any fuel above the
    value works; `natDigits` passes `n + 1`). -/
def natDigitsAux : Nat → Nat → List Char
  | 0, _ => []
  | fuel + 1, n =>
    if n < 10 then
      [digitChar n]
    else
      natDigitsAux fuel (n / 10) ++ [digitChar (n % 10)]

/-- Decimal digits of a natural number, most significant first
    (Python `str(pk)`). -/
def natDigits (n : Nat) : List Char :=
  natDigitsAux (n + 1) n

def digitVal (c : Char) : Option Nat :=
  if 48 ≤ c.toNat ∧ c.toNat ≤ 57 then some (c.toNat - 48) else Option.none

def digitsValAux (acc : Nat) : List Char → Option Nat
  | [] => some acc
  | c :: cs =>
    match digitVal c with
    | some d => digitsValAux (acc * 10 + d) cs
    | Option.none => Option.none

/-- One realisation of the `int()` oracle: canonical digit strings parse
    to their value, everything else (and the empty string, on which
    `int()` raises) fails.  Used to instantiate the witness; the theorems
    below quantify over every oracle. -/
def canonicalIntParse : List Char → Option Int
  | [] => Option.none
  | cs => (digitsValAux 0 cs).map (fun n => (n : Int))

/-- Python `bytes.decode()`, strict UTF-8, with a structural fuel
    argument (every step consumes at least one byte, so the byte count is
    enough fuel).  One byte below `0x80`, or a lead byte
    `0xC2-0xDF`/`0xE0-0xEF`/`0xF0-0xF4` with one/two/three continuation
    bytes `0x80-0xBF`, the decoded value rejecting overlong forms,
    surrogates and values above `0x10FFFF` — exactly the byte sequences
    CPython's strict decoder accepts. -/
def utf8DecodeAux : Nat → List Nat → Option (List Char)
  | _, [] => some []
  | 0, _ :: _ => Option.none
  | fuel + 1, b :: rest =>
    if b < 128 then
      (utf8DecodeAux fuel rest).map (fun cs => Char.ofNat b :: cs)
    else if 194 ≤ b ∧ b ≤ 223 then
      match rest with
      | b1 :: rest2 =>
        if 128 ≤ b1 ∧ b1 ≤ 191 then
          (utf8DecodeAux fuel rest2).map
            (fun cs => Char.ofNat ((b - 192) * 64 + (b1 - 128)) :: cs)
        else Option.none
      | [] => Option.none
    else if 224 ≤ b ∧ b ≤ 239 then
      match rest with
      | b1 :: b2 :: rest2 =>
        if (128 ≤ b1 ∧ b1 ≤ 191) ∧ (128 ≤ b2 ∧ b2 ≤ 191) then
          let v := (b - 224) * 4096 + (b1 - 128) * 64 + (b2 - 128)
          if 2048 ≤ v ∧ ¬(55296 ≤ v ∧ v ≤ 57343) then
            (utf8DecodeAux fuel rest2).map (fun cs => Char.ofNat v :: cs)
          else Option.none
        else Option.none
      | _ => Option.none
    else if 240 ≤ b ∧ b ≤ 244 then
      match rest with
      | b1 :: b2 :: b3 :: rest2 =>
        if (128 ≤ b1 ∧ b1 ≤ 191) ∧ (128 ≤ b2 ∧ b2 ≤ 191) ∧ (128 ≤ b3 ∧ b3 ≤ 191) then
          let v := (b - 240) * 262144 + (b1 - 128) * 4096 + (b2 - 128) * 64 + (b3 - 128)
          if 65536 ≤ v ∧ v ≤ 1114111 then
            (utf8DecodeAux fuel rest2).map (fun cs => Char.ofNat v :: cs)
          else Option.none
        else Option.none
      | _ => Option.none
    else Option.none

/-- Python `bytes.decode()` on a byte list. -/
def utf8Decode (bs : List Nat) : Option (List Char) :=
  utf8DecodeAux bs.length bs

/-- `encode_uid` (users/utils.py line 7). -/
def encode_uid (pk : Nat) : String :=
  ⟨b64Encode ((natDigits pk).map Char.toNat)⟩

/-- `decode_uid` (users/utils.py lines 10-15): base64-decode, UTF-8 decode,
    coerce to an integer (`intParse`, the oracle for CPython's `int`),
    look the primary key up; every failure at any stage is swallowed by
    `except Exception` and becomes `None`, as is a missing user
    (`User.DoesNotExist`). -/
def decode_uid (intParse : List Char → Option Int) (users : List UserRow)
    (uidb64 : String) : Option UserRow :=
  match urlsafe_base64_decode uidb64 with
  | Option.none => Option.none
  | some bs =>
    match utf8Decode bs with
    | Option.none => Option.none
    | some cs =>
      match intParse cs with
      | Option.none => Option.none
      | some pk => users.find? (fun u => ((u.id : Int) == pk))

/-- The positive statement of "this string base64-decodes to the primary
    key pk": each stage of `decode_uid`'s pipeline succeeds and yields
    `pk`. -/
def DecodesToPk (intParse : List Char → Option Int) (s : String) (pk : Int) : Prop :=
  ∃ bs cs, urlsafe_base64_decode s = some bs ∧ utf8Decode bs = some cs
    ∧ intParse cs = some pk

/-! ## Concrete fixtures used by the counterexample and witness theorems -/

def sampleSong : SongRow :=
  ⟨7, "Blue", 2, Option.none, Option.none, Option.none, "blue.mp3", 0, 180, 3, 0, true⟩

def sampleAlbum : AlbumRow :=
  ⟨3, "Moon", 2, Option.none, Option.none, 0, 0⟩

def sampleCatalog : Catalog :=
  ⟨[sampleSong], [], []⟩

def sampleLibrary : LibraryState :=
  ⟨[⟨2, "ann"⟩], [sampleAlbum], [sampleSong]⟩

def sampleStream : StreamState :=
  ⟨[sampleSong], []⟩

/-- The `FieldError` message `_get_user_favorites`'s filter raises. -/
def contentTypeFieldErrorMsg : String :=
  "FieldError: cannot resolve keyword content_type into field. Choices are: id, user, item_type, item_id, created_at"

/-- A handler environment whose favorites handler is the modeled
    `_get_user_favorites` (over an empty Favorite table) and whose other
    handlers succeed with empty results. -/
def favoritesOnlyHandlers : QueryHandlers where
  searchSongs := fun _ => .ok (.list [])
  searchAlbums := fun _ => .ok (.list [])
  searchArtists := fun _ => .ok (.list [])
  getAggregation := fun _ => .ok (.list [])
  getJoinedData := fun _ => .ok (.list [])
  getSubqueryResult := fun _ => .ok (.list [])
  getGroupedAggregation := fun _ => .ok (.list [])
  getUserFavorites := get_user_favorites []
  getUserHistory := fun _ => .ok (.list [])
  getUserStatsDetailed := fun _ => .ok (.list [])
  getUserStats := .ok (.dict [])

/-! ## Theorems for claims C1 and C5 -/

/-- C1: the claim states that `_fallback_processing` terminates normally on
every input and never raises.  The code contradicts it: on the query
"show my favorite songs" (one of the service's own documented examples) the
favorites branch executes `entities['favorite_type'] = 'songs'` at line 184
before the local `entities` is first bound at line 243, so CPython raises
`UnboundLocalError` instead of returning the result dict. -/
theorem C1_fallback_raises_on_favorites_query :
    fallbackIntent "show my favorite songs" = .error entitiesUnbound := rfl

/-- C5 counterexample: the query "how many songs are played on average"
contains "how many" and none of the favorite/history/stat phrases, yet the
fallback classifier assigns aggregation_type "avg", not "count", because
the inner chain tests "average"/"avg" before "how many". -/
theorem C5_counterexample_avg_beats_how_many :
    hasSub (lowerStr "how many songs are played on average") "how many" = true
    ∧ anyWordIn (lowerStr "how many songs are played on average") favoriteTriggers = false
    ∧ anyWordIn (lowerStr "how many songs are played on average") historyTriggers = false
    ∧ anyWordIn (lowerStr "how many songs are played on average") statTriggers = false
    ∧ fallbackIntent "how many songs are played on average"
        = .ok ("get_aggregation", some "avg")
    ∧ fallbackIntent "how many songs are played on average"
        ≠ .ok ("get_aggregation", some "count") :=
  ⟨rfl, rfl, rfl, rfl, rfl, fun h => by
    rw [show fallbackIntent "how many songs are played on average"
          = .ok ("get_aggregation", some "avg") from rfl] at h
    simp at h⟩

/-- C5 (amended): a query whose lowercase form triggers none of the
classifier's keyword lists falls through to intent "search_songs"; and a
query containing "how many", none of the favorite/history/stat phrases,
and neither "average" nor "avg" (the amendment: those two words are tested
first and win) is classified as "get_aggregation" with aggregation_type
"count". -/
theorem C5_fallback_default_and_count_intents (q : String) :
    (anyWordIn (lowerStr q) favoriteTriggers = false →
     anyWordIn (lowerStr q) historyTriggers = false →
     anyWordIn (lowerStr q) statTriggers = false →
     anyWordIn (lowerStr q) aggregationTriggers = false →
     anyWordIn (lowerStr q) joinTriggers = false →
     anyWordIn (lowerStr q) subqueryTriggers = false →
     anyWordIn (lowerStr q) groupingTriggers = false →
     anyWordIn (lowerStr q) topQueryTriggers = false →
     anyWordIn (lowerStr q) dateRangeTriggers = false →
     anyWordIn (lowerStr q) textSearchTriggers = false →
     anyWordIn (lowerStr q) albumWords = false →
     anyWordIn (lowerStr q) artistWords = false →
     fallbackIntent q = .ok ("search_songs", none))
    ∧ (hasSub (lowerStr q) "how many" = true →
       anyWordIn (lowerStr q) favoriteTriggers = false →
       anyWordIn (lowerStr q) historyTriggers = false →
       anyWordIn (lowerStr q) statTriggers = false →
       hasSub (lowerStr q) "average" = false →
       hasSub (lowerStr q) "avg" = false →
       fallbackIntent q = .ok ("get_aggregation", some "count")) := by
  constructor
  · intro h1 h2 h3 h4 h5 h6 h7 h8 h9 h10 h11 h12
    simp [fallbackIntent, h1, h2, h3, h4, h5, h6, h7, h8, h9, h10, h11, h12]
  · intro hhm hfav hhist hstat havg1 havg2
    have hagg : anyWordIn (lowerStr q) aggregationTriggers = true := by
      simp [anyWordIn, aggregationTriggers, hhm]
    simp [fallbackIntent, hfav, hhist, hstat, hagg, havg1, havg2, hhm]

/-- C5 witness: the amended theorem applied to the concrete queries
"play some jazz" (no trigger words, default intent) and
"how many songs are there" (count aggregation). -/
theorem C5_fallback_intents_witness :
    fallbackIntent "play some jazz" = .ok ("search_songs", none)
    ∧ fallbackIntent "how many songs are there"
        = .ok ("get_aggregation", some "count") :=
  ⟨(C5_fallback_default_and_count_intents "play some jazz").1
      rfl rfl rfl rfl rfl rfl rfl rfl rfl rfl rfl rfl,
   (C5_fallback_default_and_count_intents "how many songs are there").2
      rfl rfl rfl rfl rfl rfl⟩

/-! ## Claim C3: failure routing in `process_music_query` -/

/-- C3: whenever the Groq API key is unset (or empty), the remote call
raises, the status is not 200, the reply has no JSON object candidate, or
`json.loads` fails on the candidate, `process_music_query` returns exactly
the result of the fallback processor applied to the original user query. -/
theorem C3_failures_fall_back_to_fallback_processing (env : GroqEnv)
    (fb : String → Except String PyDict) (q : String) :
    (falsyKey env.apiKey = true → process_music_query env fb q = fb q)
    ∧ (∀ msg, env.call = .raises msg → process_music_query env fb q = fb q)
    ∧ (∀ st c, env.call = .returns st c → st ≠ 200 → process_music_query env fb q = fb q)
    ∧ (∀ c, env.call = .returns 200 c → jsonSlice c = Option.none →
        process_music_query env fb q = fb q)
    ∧ (∀ c js, env.call = .returns 200 c → jsonSlice c = some js →
        env.jsonLoads js = Option.none → process_music_query env fb q = fb q) := by
  unfold process_music_query
  refine ⟨?_, ?_, ?_, ?_, ?_⟩
  · intro h
    simp [h]
  · intro msg h
    by_cases hk : falsyKey env.apiKey <;> simp [hk, h]
  · intro st c h hst
    by_cases hk : falsyKey env.apiKey <;> simp [hk, h, hst]
  · intro c h hs
    by_cases hk : falsyKey env.apiKey <;> simp [hk, h, parse_ai_response, hs]
    cases hfb : fb q <;> simp [hfb]
  · intro c js h hs hj
    by_cases hk : falsyKey env.apiKey <;> simp [hk, h, parse_ai_response, hs, hj]
    cases hfb : fb q <;> simp [hfb]

/-- C3 witness: with no API key configured, the processor returns the
fallback's answer for the query "find songs". -/
theorem C3_fallback_routing_witness :
    process_music_query ⟨Option.none, .raises "connection error", fun _ => Option.none⟩
        (fun s => .ok [("echo", .str s)]) "find songs"
      = .ok [("echo", .str "find songs")] :=
  (C3_failures_fall_back_to_fallback_processing _ _ _).1 rfl

/-! ## Claim C2: exception wrapping in `execute_query` -/

/-- C2 counterexample: the claim says `execute_query` never propagates an
exception, for every ai_response dict.  With the dict
`{'intent': 'get_user_favorites', 'dbms_concept': 7}` the favorites
handler raises (see C4) and the except branch then evaluates
`dbms_concept.replace('_', ' ')` on the integer 7, which itself raises
`AttributeError` and propagates to the caller. -/
theorem C2_counterexample_nonstring_dbms_concept :
    execute_query favoritesOnlyHandlers
        [("intent", .str "get_user_favorites"), ("dbms_concept", .int 7)]
      = .error "AttributeError: the value of dbms_concept has no attribute replace" := rfl

/-- C2 (amended): for every ai_response dict whose `dbms_concept` value is
a string (the default when the key is absent), `execute_query` never
propagates: a raising intent handler yields `success = False` with the
message under `error`, empty `results` and `count = 0`, and a succeeding
handler yields `success = True` with the handler's results. -/
theorem C2_execute_query_wraps_handler_errors (h : QueryHandlers) (ai : PyDict)
    (s : String) (hs : dictGetD ai "dbms_concept" (.str "basic_query") = .str s) :
    (∀ e, dispatchIntent h (dictGetD ai "intent" (.str "search_songs"))
        (dictGetD ai "entities" (.dict [])) = .error e →
      execute_query h ai = .ok [("success", .bool false), ("error", .str e),
        ("result_type", .str "error"), ("results", .list []), ("count", .int 0),
        ("ai_response", .str ("Sorry, I encountered an error while processing this "
           ++ (⟨s.data.map (fun c => if c == '_' then ' ' else c)⟩ : String)
           ++ " query: " ++ e)),
        ("sql_query", dictGetD ai "sql_query" (.str "")), ("dbms_concept", .str s)])
    ∧ (∀ v rt, dispatchIntent h (dictGetD ai "intent" (.str "search_songs"))
        (dictGetD ai "entities" (.dict [])) = .ok (v, rt) →
      execute_query h ai = .ok [("success", .bool true), ("result_type", .str rt),
        ("results", v), ("count", .int (resultCount v)),
        ("ai_response", dictGetD ai "natural_response" (.str "")),
        ("sql_query", dictGetD ai "sql_query" (.str "")),
        ("dbms_concept", .str s)]) := by
  constructor
  · intro e hd
    simp [execute_query, hd, hs, pyReplaceUnderscore]
  · intro v rt hd
    simp [execute_query, hd, hs]

/-- C2 witness: with `dbms_concept` absent (so the string default applies)
the raising favorites handler is wrapped into a `success = False` dict. -/
theorem C2_execute_query_wraps_witness :
    execute_query favoritesOnlyHandlers [("intent", .str "get_user_favorites")]
      = .ok [("success", .bool false),
             ("error", .str contentTypeFieldErrorMsg),
             ("result_type", .str "error"),
             ("results", .list []),
             ("count", .int 0),
             ("ai_response", .str ("Sorry, I encountered an error while processing this basic query query: "
                ++ contentTypeFieldErrorMsg)),
             ("sql_query", .str ""),
             ("dbms_concept", .str "basic_query")] :=
  (C2_execute_query_wraps_handler_errors favoritesOnlyHandlers
      [("intent", .str "get_user_favorites")] "basic_query" rfl).1
    contentTypeFieldErrorMsg rfl

/-! ## Claim C4: `_get_user_favorites` cannot read the Favorite table -/

/-- C4: the claim says an AI query with intent `get_user_favorites` returns
the user's favorited songs/artists/albums drawn from the Favorite rows.
The code cannot: for every Favorite table and every favorite_type branch,
the filter keyword `content_type__model` fails to resolve against the
`Favorite` model (which has `item_type`/`item_id`, not a generic
`content_type`), so the handler raises `FieldError` and `execute_query`
reports `success = False` with no results. -/
theorem C4_get_user_favorites_raises_field_error (favs : List FavRow) :
    get_user_favorites favs (.dict [("favorite_type", .str "songs")])
      = .error contentTypeFieldErrorMsg
    ∧ get_user_favorites favs (.dict [("favorite_type", .str "artists")])
      = .error contentTypeFieldErrorMsg
    ∧ get_user_favorites favs (.dict [("favorite_type", .str "albums")])
      = .error contentTypeFieldErrorMsg
    ∧ get_user_favorites favs (.dict []) = .error contentTypeFieldErrorMsg :=
  ⟨rfl, rfl, rfl, rfl⟩

/-! ## Claim C6: uniqueness of Favorite rows -/

/-- Matching a Favorite row componentwise is matching its key triple. -/
theorem favMatch_iff (u : Nat) (t : String) (i : Nat) (f : FavRow) :
    favMatch u t i f = true ↔ favKey f = (u, t, i) := by
  simp [favMatch, favKey, Prod.ext_iff]
  tauto

/-- Filtering preserves the uniqueness invariant. -/
theorem FavUnique_filter (l : List FavRow) (p : FavRow → Bool) (h : FavUnique l) :
    FavUnique (l.filter p) :=
  List.Pairwise.sublist (List.filter_sublist l) h

/-- Appending a row whose key is fresh preserves the uniqueness invariant. -/
theorem FavUnique_append_new (l : List FavRow) (f : FavRow) (hl : FavUnique l)
    (hnew : l.any (favMatch f.user f.itemType f.itemId) = false) :
    FavUnique (l ++ [f]) := by
  rw [FavUnique, List.pairwise_append]
  refine ⟨hl, List.pairwise_singleton _ _, ?_⟩
  intro a ha b hb
  have hb2 : b = f := by simpa using hb
  subst hb2
  have hnm := (List.any_eq_false.mp hnew) a ha
  intro hkey
  apply hnm
  rw [favMatch_iff]
  rw [hkey]
  rfl

/-- C6: the empty table satisfies the `unique_together` invariant, the
constrained insert path preserves it, and `ToggleFavoriteView.post`
preserves it on every request (deletion only removes rows; creation runs
only when no matching row exists). -/
theorem C6_favorite_uniqueness_preserved :
    FavUnique []
    ∧ (∀ (favs : List FavRow) (f : FavRow) (favs2 : List FavRow), FavUnique favs →
        favoriteInsert favs f = .ok favs2 → FavUnique favs2)
    ∧ (∀ (cat : Catalog) (favs : List FavRow) (uid : Nat) (req : ToggleReq),
        FavUnique favs → FavUnique (toggleFavorite cat favs uid req).2) := by
  refine ⟨List.Pairwise.nil, ?_, ?_⟩
  · intro favs f favs2 hu hins
    unfold favoriteInsert at hins
    by_cases hany : favs.any (fun g => favMatch f.user f.itemType f.itemId g)
    · simp [hany] at hins
    · simp [hany] at hins
      subst hins
      exact FavUnique_append_new favs f hu (by simpa using hany)
  · intro cat favs uid req hu
    unfold toggleFavorite
    split
    · exact hu
    · dsimp only
      split
      · exact hu
      · split
        · exact FavUnique_filter _ _ hu
        · rename_i hne hex hany
          exact FavUnique_append_new favs _ hu (by simpa using hany)

/-- C6 witness: toggling an existing favorite over a singleton table keeps
the invariant. -/
theorem C6_favorite_uniqueness_witness :
    FavUnique ((toggleFavorite sampleCatalog [⟨1, "song", 7⟩] 1
        ⟨some "song", some 7⟩).2) :=
  C6_favorite_uniqueness_preserved.2.2 sampleCatalog [⟨1, "song", 7⟩] 1
    ⟨some "song", some 7⟩ (List.pairwise_singleton _ _)

/-! ## Claim C8: toggling twice restores the Favorite rows -/

/-- A row matching a key triple is that triple's record. -/
theorem favRow_eq_of_match (u : Nat) (t : String) (i : Nat) (f : FavRow)
    (h : favMatch u t i f = true) : f = ⟨u, t, i⟩ := by
  have hk := (favMatch_iff u t i f).mp h
  cases f
  simpa [favKey, Prod.ext_iff] using hk

/-- Under the uniqueness invariant, removing the rows matching a present
key and appending that key's record is a permutation of the original
table. -/
theorem filter_single_match_perm (u : Nat) (t : String) (i : Nat) :
    ∀ l : List FavRow, FavUnique l → l.any (favMatch u t i) = true →
      (l.filter (fun f => !(favMatch u t i f)) ++ [(⟨u, t, i⟩ : FavRow)]).Perm l := by
  intro l
  induction l with
  | nil => intro _ h; simp at h
  | cons hd tl ih =>
    intro hu hany
    unfold FavUnique at hu
    rw [List.pairwise_cons] at hu
    cases hm : favMatch u t i hd with
    | true =>
      have hhd : hd = ⟨u, t, i⟩ := favRow_eq_of_match u t i hd hm
      have hkey : favKey hd = (u, t, i) := (favMatch_iff u t i hd).mp hm
      have htl : ∀ f ∈ tl, favMatch u t i f = false := by
        intro f hf
        cases hmf : favMatch u t i f with
        | false => rfl
        | true =>
          exfalso
          exact hu.1 f hf (by rw [hkey, (favMatch_iff u t i f).mp hmf])
      have hfilter : tl.filter (fun f => !(favMatch u t i f)) = tl := by
        rw [List.filter_eq_self]
        intro a ha
        simp [htl a ha]
      simp only [List.filter_cons, hm]
      simp only [Bool.not_true, if_neg]
      rw [hfilter, hhd]
      exact List.perm_append_singleton _ _
    | false =>
      have hany2 : tl.any (favMatch u t i) = true := by
        simp [List.any_cons, hm] at hany
        simpa using hany
      simp only [List.filter_cons, hm, Bool.not_false, if_pos]
      simpa [List.cons_append] using (ih hu.2 hany2).cons hd

/-- C8: for a valid item (an approved song, an album, or a public-or-owned
playlist, with a nonempty type and nonzero id) and a Favorite table
satisfying the uniqueness invariant, toggling twice returns the rows to a
permutation of the initial table; the first call reports `favorited` true
exactly when no matching favorite existed, and the second call reports the
opposite value. -/
theorem C8_toggle_twice_restores_favorites (cat : Catalog) (favs : List FavRow)
    (uid : Nat) (t : String) (i : Nat)
    (hu : FavUnique favs) (ht : t.isEmpty = false) (hi : i ≠ 0)
    (hex : itemExistsCheck cat uid t i = true) :
    ((toggleFavorite cat (toggleFavorite cat favs uid ⟨some t, some i⟩).2 uid
        ⟨some t, some i⟩).2).Perm favs
    ∧ respFavorited (toggleFavorite cat favs uid ⟨some t, some i⟩).1
        = some (!favs.any (favMatch uid t i))
    ∧ respFavorited (toggleFavorite cat (toggleFavorite cat favs uid ⟨some t, some i⟩).2 uid
        ⟨some t, some i⟩).1 = some (favs.any (favMatch uid t i)) := by
  have hfalsy : (pyFalsyStrOpt (some t) || pyFalsyNatOpt (some i)) = false := by
    simp [pyFalsyStrOpt, pyFalsyNatOpt, ht, hi]
  have hself : favMatch uid t i ⟨uid, t, i⟩ = true := by simp [favMatch]
  cases hany : favs.any (favMatch uid t i) with
  | false =>
    have h1 : toggleFavorite cat favs uid ⟨some t, some i⟩
        = (.added ⟨uid, t, i⟩, favs ++ [⟨uid, t, i⟩]) := by
      unfold toggleFavorite
      simp [hfalsy, hex, hany]
    have hany2 : (favs ++ [(⟨uid, t, i⟩ : FavRow)]).any (favMatch uid t i) = true := by
      simp [List.any_append, hself]
    have hfilter : (favs ++ [(⟨uid, t, i⟩ : FavRow)]).filter
        (fun f => !(favMatch uid t i f)) = favs := by
      rw [List.filter_append]
      have h2 : favs.filter (fun f => !(favMatch uid t i f)) = favs := by
        rw [List.filter_eq_self]
        intro a ha
        simp [(List.any_eq_false.mp hany) a ha]
      simp [h2, hself]
    have h2 : toggleFavorite cat (favs ++ [(⟨uid, t, i⟩ : FavRow)]) uid ⟨some t, some i⟩
        = (.removed ((favs ++ [(⟨uid, t, i⟩ : FavRow)]).length - favs.length), favs) := by
      unfold toggleFavorite
      simp only [hfalsy, Bool.false_eq_true, if_false]
      simp only [Option.getD_some]
      rw [if_neg (by simp [hex]), if_pos hany2, hfilter]
    rw [h1]
    rw [h2]
    simp [respFavorited]
  | true =>
    have h1 : toggleFavorite cat favs uid ⟨some t, some i⟩
        = (.removed (favs.length - (favs.filter (fun f => !(favMatch uid t i f))).length),
           favs.filter (fun f => !(favMatch uid t i f))) := by
      unfold toggleFavorite
      simp [hfalsy, hex, hany]
    have hany2 : (favs.filter (fun f => !(favMatch uid t i f))).any (favMatch uid t i)
        = false := by
      rw [List.any_eq_false]
      intro a ha
      have hmem := (List.mem_filter.mp ha).2
      simp at hmem
      simp [hmem]
    have h2 : toggleFavorite cat (favs.filter (fun f => !(favMatch uid t i f))) uid
        ⟨some t, some i⟩
        = (.added ⟨uid, t, i⟩,
           favs.filter (fun f => !(favMatch uid t i f)) ++ [⟨uid, t, i⟩]) := by
      unfold toggleFavorite
      simp only [hfalsy, Bool.false_eq_true, if_false]
      simp only [Option.getD_some]
      rw [if_neg (by simp [hex]), if_neg (by simp [hany2])]
    rw [h1, h2]
    refine ⟨?_, by simp [respFavorited], by simp [respFavorited]⟩
    exact filter_single_match_perm uid t i favs hu hany

/-- C8 witness: favoriting song 7 twice from an empty table returns to the
empty table, reporting `favorited` true then false. -/
theorem C8_toggle_twice_witness :
    ((toggleFavorite sampleCatalog (toggleFavorite sampleCatalog [] 1
        ⟨some "song", some 7⟩).2 1 ⟨some "song", some 7⟩).2).Perm []
    ∧ respFavorited (toggleFavorite sampleCatalog [] 1 ⟨some "song", some 7⟩).1
        = some true
    ∧ respFavorited (toggleFavorite sampleCatalog (toggleFavorite sampleCatalog [] 1
        ⟨some "song", some 7⟩).2 1 ⟨some "song", some 7⟩).1 = some false :=
  C8_toggle_twice_restores_favorites sampleCatalog [] 1 "song" 7
    List.Pairwise.nil rfl (by omega) rfl

/-! ## Claim C7: declared cascade rules -/

/-- C7: deleting an Album removes no song — every song survives with all
fields but `album` unchanged, and `album` is nulled exactly for the
deleted album's songs — while deleting a User removes exactly the albums
and songs whose artist is that user (the survivors keeping all fields but
a possibly nulled `album`). -/
theorem C7_delete_cascade_rules (db : LibraryState) (aid uid : Nat) :
    ((deleteAlbum db aid).songs.length = db.songs.length
     ∧ List.Forall₂ (fun s s2 => sameExceptAlbum s s2
         ∧ (s.album = some aid → s2.album = Option.none)
         ∧ (s.album ≠ some aid → s2.album = s.album))
        db.songs (deleteAlbum db aid).songs)
    ∧ (∀ a : AlbumRow, a ∈ (deleteUser db uid).albums ↔ a ∈ db.albums ∧ a.artist ≠ uid)
    ∧ (∀ s : SongRow, s ∈ (deleteUser db uid).songs → s.artist ≠ uid)
    ∧ List.Forall₂ (fun s s2 => sameExceptAlbum s s2)
        (db.songs.filter (fun s => !(s.artist == uid))) (deleteUser db uid).songs := by
  refine ⟨⟨by simp [deleteAlbum], ?_⟩, ?_, ?_, ?_⟩
  · unfold deleteAlbum
    simp only
    rw [List.forall₂_map_right_iff]
    rw [List.forall₂_same]
    intro s hs
    by_cases h : s.album = some aid
    · simp [h, sameExceptAlbum]
    · have hbeq : (s.album == some aid) = false := by simp [h]
      simp [hbeq, sameExceptAlbum, h]
  · intro a
    unfold deleteUser
    simp [List.mem_filter]
  · intro s hs
    unfold deleteUser at hs
    simp only [List.mem_map] at hs
    obtain ⟨s0, hs0, rfl⟩ := hs
    have hf := (List.mem_filter.mp hs0).2
    split
    all_goals simpa using hf
  · unfold deleteUser
    simp only
    rw [List.forall₂_map_right_iff, List.forall₂_same]
    intro s hs
    split
    all_goals simp [sameExceptAlbum]

/-- C7 witness: deleting album 3 from the sample library keeps every
song. -/
theorem C7_delete_cascade_witness :
    (deleteAlbum sampleLibrary 3).songs.length = sampleLibrary.songs.length :=
  (C7_delete_cascade_rules sampleLibrary 3 1).1.1

/-! ## Claim C10: effects of a successful stream -/

/-- C10: a successful `SongStreamView.get` changes exactly the streamed
song — its `play_count` goes up by one and every other field (and every
other song) is unchanged — and appends exactly one ListeningHistory row
for the requester precisely when the requester is authenticated. -/
theorem C10_stream_success_effects (fileOk : Nat → Bool) (st : StreamState)
    (requser : Option Nat) (pk : Nat)
    (hok : (song_stream_get fileOk st requser pk).1 = .streamed) :
    List.Forall₂ (fun s s2 =>
        (s.id = pk → sameExceptPlayCount s s2 ∧ s2.playCount = s.playCount + 1)
        ∧ (s.id ≠ pk → s2 = s))
      st.songs (song_stream_get fileOk st requser pk).2.songs
    ∧ (∀ u, requser = some u →
        (song_stream_get fileOk st requser pk).2.history = st.history ++ [⟨u, pk⟩])
    ∧ (requser = Option.none →
        (song_stream_get fileOk st requser pk).2.history = st.history) := by
  obtain ⟨s0, hfind⟩ : ∃ s0, findSong st.songs pk = some s0 := by
    unfold song_stream_get at hok
    cases h : findSong st.songs pk
    · rw [h] at hok; simp at hok
    · exact ⟨_, rfl⟩
  have hfile : fileOk pk = true := by
    unfold song_stream_get at hok
    rw [hfind] at hok
    cases h : fileOk pk
    · rw [h] at hok; simp at hok
    · rfl
  unfold song_stream_get
  rw [hfind]
  simp only [hfile, if_true]
  refine ⟨?_, ?_, ?_⟩
  · rw [List.forall₂_map_right_iff, List.forall₂_same]
    intro s hs
    constructor
    · intro hid
      have hbeq : (s.id == pk) = true := by simp [hid]
      simp [hbeq, sameExceptPlayCount]
    · intro hid
      have hbeq : (s.id == pk) = false := by simp [hid]
      simp [hbeq]
  · intro u hu
    rw [hu]
  · intro hu
    rw [hu]

/-- C10 witness: an authenticated stream of song 7 appends that listening
event. -/
theorem C10_stream_success_witness :
    (song_stream_get (fun _ => true) sampleStream (some 1) 7).2.history
      = sampleStream.history ++ [⟨1, 7⟩] :=
  (C10_stream_success_effects (fun _ => true) sampleStream (some 1) 7 rfl).2.1 1 rfl

/-! ## Claim C9: the uid encode/decode round trip -/

/-- Decoding inverts the base64 alphabet on six-bit values. -/
theorem b64_dec_enc : ∀ n < 64, b64DecChar (b64EncChar n) = some n := by decide

/-- No alphabet character is the padding character. -/
theorem b64EncChar_ne_pad : ∀ n < 64, (b64EncChar n == '=') = false := by decide

/-- Every alphabet character is a one-byte UTF-8 character. -/
theorem b64EncChar_utf8Size : ∀ n < 64, Char.utf8Size (b64EncChar n) = 1 := by decide

/-- One machine step on a data character in quad position 0. -/
theorem a2b_step0 (c : Char) (v : Nat) (hpad : (c == '=') = false)
    (hdec : b64DecChar c = some v) (rest : List Char) (left pads : Nat)
    (acc : List Nat) :
    a2bBase64 (c :: rest) 0 left pads acc = a2bBase64 rest 1 v 0 acc := by
  simp [a2bBase64, hpad, hdec]

/-- One machine step on a data character in quad position 1: the first
    byte of the quad is emitted. -/
theorem a2b_step1 (c : Char) (v : Nat) (hpad : (c == '=') = false)
    (hdec : b64DecChar c = some v) (rest : List Char) (left pads : Nat)
    (acc : List Nat) :
    a2bBase64 (c :: rest) 1 left pads acc
      = a2bBase64 rest 2 (v % 16) 0 (acc ++ [left * 4 + v / 16]) := by
  simp [a2bBase64, hpad, hdec]

/-- One machine step on a data character in quad position 2. -/
theorem a2b_step2 (c : Char) (v : Nat) (hpad : (c == '=') = false)
    (hdec : b64DecChar c = some v) (rest : List Char) (left pads : Nat)
    (acc : List Nat) :
    a2bBase64 (c :: rest) 2 left pads acc
      = a2bBase64 rest 3 (v % 4) 0 (acc ++ [left * 16 + v / 4]) := by
  simp [a2bBase64, hpad, hdec]

/-- One machine step on a data character in quad position 3. -/
theorem a2b_step3 (c : Char) (v : Nat) (hpad : (c == '=') = false)
    (hdec : b64DecChar c = some v) (rest : List Char) (left pads : Nat)
    (acc : List Nat) :
    a2bBase64 (c :: rest) 3 left pads acc
      = a2bBase64 rest 0 0 0 (acc ++ [left * 64 + v]) := by
  simp [a2bBase64, hpad, hdec]

/-- A padding character that completes the quad stops the machine. -/
theorem a2b_pad_done (rest : List Char) (qp left pads : Nat) (acc : List Nat)
    (h2 : 2 ≤ qp) (h4 : 4 ≤ qp + pads + 1) :
    a2bBase64 ('=' :: rest) qp left pads acc = some acc := by
  simp [a2bBase64, h2, h4]

/-- A padding character after two data characters that does not yet
    complete the quad is counted. -/
theorem a2b_pad_count (rest : List Char) (qp left pads : Nat) (acc : List Nat)
    (h2 : 2 ≤ qp) (h4 : ¬(4 ≤ qp + pads + 1)) :
    a2bBase64 ('=' :: rest) qp left pads acc
      = a2bBase64 rest qp left (pads + 1) acc := by
  simp [a2bBase64, h2, h4]

/-- The machine decodes an encoded byte list followed by Django's
    `len % 4` padding back to those bytes, whatever was emitted before. -/
theorem a2b_encode_round_trip : ∀ bs : List Nat, (∀ b ∈ bs, b < 256) →
    ∀ acc : List Nat,
      a2bBase64 (b64Encode bs ++ List.replicate ((b64Encode bs).length % 4) '=')
          0 0 0 acc
        = some (acc ++ bs) := by
  intro bs
  induction bs using b64Encode.induct with
  | case1 =>
    intro _ acc
    simp [b64Encode, a2bBase64]
  | case2 b0 =>
    intro h acc
    have hb0 : b0 < 256 := h b0 (by simp)
    rw [show b64Encode [b0] ++ List.replicate ((b64Encode [b0]).length % 4) '='
          = b64EncChar (b0 / 4) :: b64EncChar (b0 % 4 * 16) :: '=' :: '=' :: [] from rfl]
    rw [a2b_step0 _ _ (b64EncChar_ne_pad _ (by omega)) (b64_dec_enc _ (by omega))]
    rw [a2b_step1 _ _ (b64EncChar_ne_pad _ (by omega)) (b64_dec_enc _ (by omega))]
    rw [a2b_pad_count _ _ _ _ _ (by omega) (by omega)]
    rw [a2b_pad_done _ _ _ _ _ (by omega) (by omega)]
    have harith : b0 / 4 * 4 + b0 % 4 * 16 / 16 = b0 := by omega
    rw [harith]
  | case3 b0 b1 =>
    intro h acc
    have hb0 : b0 < 256 := h b0 (by simp)
    have hb1 : b1 < 256 := h b1 (by simp)
    rw [show b64Encode [b0, b1] ++ List.replicate ((b64Encode [b0, b1]).length % 4) '='
          = b64EncChar (b0 / 4) :: b64EncChar (b0 % 4 * 16 + b1 / 16)
              :: b64EncChar (b1 % 16 * 4) :: '=' :: '=' :: '=' :: [] from rfl]
    rw [a2b_step0 _ _ (b64EncChar_ne_pad _ (by omega)) (b64_dec_enc _ (by omega))]
    rw [a2b_step1 _ _ (b64EncChar_ne_pad _ (by omega)) (b64_dec_enc _ (by omega))]
    rw [a2b_step2 _ _ (b64EncChar_ne_pad _ (by omega)) (b64_dec_enc _ (by omega))]
    rw [a2b_pad_done _ _ _ _ _ (by omega) (by omega)]
    have ha0 : b0 / 4 * 4 + (b0 % 4 * 16 + b1 / 16) / 16 = b0 := by omega
    have ha1 : (b0 % 4 * 16 + b1 / 16) % 16 * 16 + b1 % 16 * 4 / 4 = b1 := by omega
    rw [ha0, ha1]
    simp
  | case4 b0 b1 b2 rest ih =>
    intro h acc
    have hb0 : b0 < 256 := h b0 (by simp)
    have hb1 : b1 < 256 := h b1 (by simp)
    have hb2 : b2 < 256 := h b2 (by simp)
    have hrest : ∀ b ∈ rest, b < 256 := fun b hb => h b (by simp [hb])
    have hshape : b64Encode (b0 :: b1 :: b2 :: rest)
        ++ List.replicate ((b64Encode (b0 :: b1 :: b2 :: rest)).length % 4) '='
        = b64EncChar (b0 / 4) :: b64EncChar (b0 % 4 * 16 + b1 / 16)
            :: b64EncChar (b1 % 16 * 4 + b2 / 64) :: b64EncChar (b2 % 64)
            :: (b64Encode rest ++ List.replicate ((b64Encode rest).length % 4) '=') := by
      rw [b64Encode]
      simp only [List.length_cons, List.cons_append]
      have hmod : (b64Encode rest).length.succ.succ.succ.succ % 4
          = (b64Encode rest).length % 4 := by omega
      rw [hmod]
    rw [hshape]
    rw [a2b_step0 _ _ (b64EncChar_ne_pad _ (by omega)) (b64_dec_enc _ (by omega))]
    rw [a2b_step1 _ _ (b64EncChar_ne_pad _ (by omega)) (b64_dec_enc _ (by omega))]
    rw [a2b_step2 _ _ (b64EncChar_ne_pad _ (by omega)) (b64_dec_enc _ (by omega))]
    rw [a2b_step3 _ _ (b64EncChar_ne_pad _ (by omega)) (b64_dec_enc _ (by omega))]
    have ha0 : b0 / 4 * 4 + (b0 % 4 * 16 + b1 / 16) / 16 = b0 := by omega
    have ha1 : (b0 % 4 * 16 + b1 / 16) % 16 * 16 + (b1 % 16 * 4 + b2 / 64) / 4 = b1 := by
      omega
    have ha2 : (b1 % 16 * 4 + b2 / 64) % 4 * 64 + b2 % 64 = b2 := by omega
    rw [ha0, ha1, ha2]
    rw [ih hrest]
    simp

/-- Every character the encoder emits is an alphabet character. -/
theorem b64Encode_chars : ∀ bs : List Nat, (∀ b ∈ bs, b < 256) →
    ∀ c ∈ b64Encode bs, ∃ n, n < 64 ∧ c = b64EncChar n := by
  intro bs
  induction bs using b64Encode.induct with
  | case1 =>
    intro _ c hc
    simp [b64Encode] at hc
  | case2 b0 =>
    intro h c hc
    have hb0 : b0 < 256 := h b0 (by simp)
    simp [b64Encode] at hc
    rcases hc with rfl | rfl
    · exact ⟨b0 / 4, by omega, rfl⟩
    · exact ⟨b0 % 4 * 16, by omega, rfl⟩
  | case3 b0 b1 =>
    intro h c hc
    have hb0 : b0 < 256 := h b0 (by simp)
    have hb1 : b1 < 256 := h b1 (by simp)
    simp [b64Encode] at hc
    rcases hc with rfl | rfl | rfl
    · exact ⟨b0 / 4, by omega, rfl⟩
    · exact ⟨b0 % 4 * 16 + b1 / 16, by omega, rfl⟩
    · exact ⟨b1 % 16 * 4, by omega, rfl⟩
  | case4 b0 b1 b2 rest ih =>
    intro h c hc
    have hb0 : b0 < 256 := h b0 (by simp)
    have hb1 : b1 < 256 := h b1 (by simp)
    have hb2 : b2 < 256 := h b2 (by simp)
    have hrest : ∀ b ∈ rest, b < 256 := fun b hb => h b (by simp [hb])
    rw [b64Encode] at hc
    simp only [List.mem_cons] at hc
    rcases hc with rfl | rfl | rfl | rfl | hmem
    · exact ⟨b0 / 4, by omega, rfl⟩
    · exact ⟨b0 % 4 * 16 + b1 / 16, by omega, rfl⟩
    · exact ⟨b1 % 16 * 4 + b2 / 64, by omega, rfl⟩
    · exact ⟨b2 % 64, by omega, rfl⟩
    · exact ih hrest c hmem

/-- A list of one-byte characters has as many UTF-8 bytes as characters. -/
theorem sum_utf8Size_ascii : ∀ l : List Char, (∀ c ∈ l, Char.utf8Size c = 1) →
    (l.map Char.utf8Size).sum = l.length := by
  intro l
  induction l with
  | nil => intro _; rfl
  | cons c cs ih =>
    intro h
    have hc : Char.utf8Size c = 1 := h c (by simp)
    have hcs := ih (fun x hx => h x (by simp [hx]))
    simp [hc, hcs]
    omega

/-- The modeled Django decoder inverts the encoder on every byte list. -/
theorem urlsafe_decode_encode (bs : List Nat) (h : ∀ b ∈ bs, b < 256) :
    urlsafe_base64_decode ⟨b64Encode bs⟩ = some bs := by
  unfold urlsafe_base64_decode
  rw [show (String.mk (b64Encode bs)).data = b64Encode bs from rfl]
  have hsize : ((b64Encode bs).map Char.utf8Size).sum = (b64Encode bs).length := by
    apply sum_utf8Size_ascii
    intro c hc
    obtain ⟨n, hn, rfl⟩ := b64Encode_chars bs h c hc
    exact b64EncChar_utf8Size n hn
  rw [hsize]
  simpa using a2b_encode_round_trip bs h []

/-- A decimal digit's character parses back to the digit. -/
theorem digitVal_digitChar : ∀ n < 10, digitVal (digitChar n) = some n := by decide

/-- A decimal digit's character has the expected ASCII code. -/
theorem digitChar_toNat : ∀ n < 10, (digitChar n).toNat = 48 + n := by decide

/-- Re-decoding the ASCII code of a digit character gives it back. -/
theorem digitChar_ofNat_toNat : ∀ n < 10, Char.ofNat (digitChar n).toNat = digitChar n := by
  decide

/-- Every character `natDigitsAux` emits is a decimal digit. -/
theorem natDigitsAux_mem : ∀ fuel n c, c ∈ natDigitsAux fuel n →
    ∃ d, d < 10 ∧ c = digitChar d := by
  intro fuel
  induction fuel with
  | zero => intro n c hc; simp [natDigitsAux] at hc
  | succ fuel ih =>
    intro n c hc
    rw [natDigitsAux] at hc
    by_cases h : n < 10
    · rw [if_pos h] at hc
      simp at hc
      exact ⟨n, h, hc⟩
    · rw [if_neg h] at hc
      rw [List.mem_append] at hc
      cases hc with
      | inl hl => exact ih _ _ hl
      | inr hr =>
        simp at hr
        exact ⟨n % 10, by omega, hr⟩

/-- Evaluating the accumulator parse over an append. -/
theorem digitsValAux_append (xs : List Char) : ∀ acc a ys,
    digitsValAux acc xs = some a →
    digitsValAux acc (xs ++ ys) = digitsValAux a ys := by
  induction xs with
  | nil =>
    intro acc a ys h
    simp [digitsValAux] at h
    subst h
    rfl
  | cons c cs ih =>
    intro acc a ys h
    rw [digitsValAux] at h
    cases hd : digitVal c with
    | none => rw [hd] at h; simp at h
    | some d =>
      rw [hd] at h
      simp only [List.cons_append, digitsValAux, hd]
      exact ih _ _ _ h

/-- Parsing the emitted digits recovers the number (up to the place value
of the accumulator). -/
theorem digitsValAux_natDigitsAux : ∀ fuel n acc, n < fuel →
    ∃ m, 0 < m ∧ digitsValAux acc (natDigitsAux fuel n) = some (acc * m + n) := by
  intro fuel
  induction fuel with
  | zero => intro n acc h; omega
  | succ fuel ih =>
    intro n acc h
    rw [natDigitsAux]
    by_cases hn : n < 10
    · rw [if_pos hn]
      refine ⟨10, by omega, ?_⟩
      simp only [digitsValAux, digitVal_digitChar n hn]
    · rw [if_neg hn]
      have hlt : n / 10 < fuel := by omega
      obtain ⟨m, hm, hval⟩ := ih (n / 10) acc hlt
      refine ⟨m * 10, by omega, ?_⟩
      rw [digitsValAux_append _ _ _ _ hval]
      simp only [digitsValAux, digitVal_digitChar (n % 10) (by omega)]
      congr 1
      calc (acc * m + n / 10) * 10 + n % 10
          = acc * (m * 10) + (n / 10 * 10 + n % 10) := by ring
        _ = acc * (m * 10) + n := by omega

/-- A number always has at least one digit. -/
theorem natDigitsAux_ne_nil : ∀ fuel n, 0 < fuel → natDigitsAux fuel n ≠ [] := by
  intro fuel n h
  cases fuel with
  | zero => omega
  | succ fuel =>
    rw [natDigitsAux]
    by_cases hn : n < 10
    · rw [if_pos hn]; simp
    · rw [if_neg hn]; simp

/-- The canonical parse inverts the digit printer. -/
theorem canonicalIntParse_natDigits (n : Nat) :
    canonicalIntParse (natDigits n) = some (n : Int) := by
  obtain ⟨m, _, hval⟩ := digitsValAux_natDigitsAux (n + 1) n 0 (by omega)
  have hval2 : digitsValAux 0 (natDigits n) = some n := by
    unfold natDigits
    rw [hval]
    congr 1
    omega
  have hne : natDigits n ≠ [] := natDigitsAux_ne_nil (n + 1) n (by omega)
  cases hd : natDigits n with
  | nil => exact absurd hd hne
  | cons c cs =>
    rw [hd] at hval2
    show ((digitsValAux 0 (c :: cs)).map fun k => (k : Int)) = some (n : Int)
    rw [hval2]
    rfl

/-- The UTF-8 bytes of a decimal string are single bytes. -/
theorem natDigits_bytes_bound (n : Nat) :
    ∀ b ∈ (natDigits n).map Char.toNat, b < 256 := by
  intro b hb
  rw [List.mem_map] at hb
  obtain ⟨c, hc, rfl⟩ := hb
  obtain ⟨d, hd, rfl⟩ := natDigitsAux_mem _ _ _ hc
  rw [digitChar_toNat d hd]
  omega

/-- Every character of a decimal string is ASCII. -/
theorem natDigits_ascii (n : Nat) : ∀ c ∈ natDigits n, c.toNat < 128 := by
  intro c hc
  obtain ⟨d, hd, rfl⟩ := natDigitsAux_mem _ _ _ hc
  rw [digitChar_toNat d hd]
  omega

/-- Strict UTF-8 decoding inverts the byte map on ASCII strings (any
sufficient fuel). -/
theorem utf8DecodeAux_ascii : ∀ (fuel : Nat) (cs : List Char), cs.length ≤ fuel →
    (∀ c ∈ cs, c.toNat < 128) → utf8DecodeAux fuel (cs.map Char.toNat) = some cs := by
  intro fuel
  induction fuel with
  | zero =>
    intro cs hlen _
    have hnil : cs = [] := List.length_eq_zero.mp (by omega)
    subst hnil
    rfl
  | succ fuel ih =>
    intro cs hlen h
    cases cs with
    | nil => rfl
    | cons c cs =>
      have hc : c.toNat < 128 := h c (by simp)
      rw [List.map_cons, utf8DecodeAux.eq_def]
      dsimp only
      rw [if_pos hc]
      rw [ih cs (by simp at hlen; omega) (fun x hx => h x (by simp [hx]))]
      simp only [Option.map_some']
      rw [Char.ofNat_toNat]

/-- Strict UTF-8 decoding inverts the byte map on ASCII strings. -/
theorem utf8Decode_ascii (cs : List Char) (h : ∀ c ∈ cs, c.toNat < 128) :
    utf8Decode (cs.map Char.toNat) = some cs := by
  unfold utf8Decode
  rw [List.length_map]
  exact utf8DecodeAux_ascii cs.length cs (Nat.le_refl _) h

/-- With pairwise-distinct primary keys, looking a member's key up finds
that member. -/
theorem find?_of_mem_nodup : ∀ (users : List UserRow) (u : UserRow), u ∈ users →
    (users.map (fun x => x.id)).Nodup →
    users.find? (fun x => ((x.id : Int) == (u.id : Int))) = some u := by
  intro users
  induction users with
  | nil => intro u hu; simp at hu
  | cons hd tl ih =>
    intro u hu hnd
    rw [List.map_cons, List.nodup_cons] at hnd
    rw [List.mem_cons] at hu
    cases hu with
    | inl h =>
      subst h
      rw [List.find?_cons_of_pos _ (by simp)]
    | inr h =>
      have hne : hd.id ≠ u.id := by
        intro heq
        exact hnd.1 (heq ▸ List.mem_map_of_mem (fun x => x.id) h)
      rw [List.find?_cons_of_neg _ (by simp [hne])]
      exact ih u h hnd.2

/-- C9: for every oracle realising `int()` (whose only assumed property is
`int(str(pk)) == pk`), the pipeline is a round trip for every existing
user (`decode_uid (encode_uid pk)` returns that user), and a string whose
decode pipeline does not produce the primary key of an existing user is
mapped to `None` — never an exception, every stage's failure being caught
by the blanket `except`. -/
theorem C9_encode_decode_uid_round_trip (users : List UserRow)
    (intParse : List Char → Option Int)
    (hcanon : ∀ n : Nat, intParse (natDigits n) = some (n : Int)) :
    ((users.map (fun x => x.id)).Nodup →
      ∀ u ∈ users, decode_uid intParse users (encode_uid u.id) = some u)
    ∧ (∀ s : String,
        (∀ pk, DecodesToPk intParse s pk → ∀ u ∈ users, (u.id : Int) ≠ pk) →
        decode_uid intParse users s = Option.none) := by
  constructor
  · intro hnd u hu
    unfold decode_uid encode_uid
    rw [urlsafe_decode_encode _ (natDigits_bytes_bound u.id)]
    dsimp only
    rw [utf8Decode_ascii _ (natDigits_ascii u.id)]
    dsimp only
    rw [hcanon u.id]
    dsimp only
    exact find?_of_mem_nodup users u hu hnd
  · intro s hnope
    unfold decode_uid
    cases hb : urlsafe_base64_decode s with
    | none => rfl
    | some bs =>
      dsimp only
      cases ha : utf8Decode bs with
      | none => rfl
      | some cs =>
        dsimp only
        cases hp : intParse cs with
        | none => rfl
        | some pk =>
          dsimp only
          rw [List.find?_eq_none]
          intro u hu
          have hne := hnope pk ⟨bs, cs, hb, ha, hp⟩ u hu
          simp [hne]

/-- C9 witness: the round trip for a concrete user with the canonical
oracle, and `None` for a one-character input, on which the padded decode
ends with a dangling quad and raises. -/
theorem C9_encode_decode_uid_witness :
    decode_uid canonicalIntParse [⟨5, "alice"⟩] (encode_uid 5) = some ⟨5, "alice"⟩
    ∧ decode_uid canonicalIntParse [⟨5, "alice"⟩] "N" = Option.none :=
  ⟨(C9_encode_decode_uid_round_trip [⟨5, "alice"⟩] canonicalIntParse
      canonicalIntParse_natDigits).1 (by simp) ⟨5, "alice"⟩ (by simp),
   (C9_encode_decode_uid_round_trip [⟨5, "alice"⟩] canonicalIntParse
      canonicalIntParse_natDigits).2 "N" (fun pk hdec => by
      obtain ⟨bs, cs, hb, _⟩ := hdec
      rw [show urlsafe_base64_decode "N" = Option.none from rfl] at hb
      cases hb)⟩

end HarmonyDB
